import Mathlib

/-!
Shallow embedding of the result-builder and signature-verification core of
the `terraform-run-task` repository.

The Go sources embedded here:
  * `internal/sdk/api/task_request.go` — the `TaskResponse` data model and its
    fluent builder methods (`NewTaskResponse`, `AddOutcome`, `SetResult`,
    `WithUrl`, `IsPassed`) together with the JSON wire shape produced by
    `encoding/json` over the tagged structs;
  * `internal/sdk/handler/callback_builder.go` — `CallbackBuilder` and its
    `WithUrl`;
  * `internal/sdk/handler/hmac.go` — `VerifyHMAC`, an HMAC-SHA-512 check of a
    hex-encoded request signature.

Go byte slices are modelled as `List Nat` (each element a byte value), Go
strings as `String`, Go string-typed enumerations (`TaskStatus`,
`ResponseTagLevel`) as `String` with the declared constants, and nil-able
pointers as `Option`.  A Go operation that dereferences a possibly-nil
pointer is modelled as returning `Option` (`none` standing for the panic).
64-bit machine arithmetic inside SHA-512 is `Nat` arithmetic reduced
`% 2 ^ 64` wherever Go would overflow.
-/

set_option maxRecDepth 100000

namespace RunTask

/-! ## String prefix test (Go `strings.HasPrefix`) -/

/-- Go `strings.HasPrefix s p`: `p` is a prefix of `s`.  For the ASCII
prefixes used in this code the byte-wise Go test agrees with the
character-wise list test. -/
def hasPfx (s p : String) : Bool :=
  p.data.isPrefixOf s.data

/-! ## Data model (`internal/sdk/api/task_request.go`) -/

/-- Go `type TaskStatus string`; constant `TaskFailed = "failed"`. -/
def TaskFailed : String := "failed"

/-- Go constant `TaskPassed TaskStatus = "passed"`. -/
def TaskPassed : String := "passed"

/-- Go constant `TaskRunning TaskStatus = "running"`. -/
def TaskRunning : String := "running"

/-- Go `type ResponseTagLevel string`; constant `TagLevelNone = "none"`. -/
def TagLevelNone : String := "none"

/-- Go constant `TagLevelInfo ResponseTagLevel = "info"`. -/
def TagLevelInfo : String := "info"

/-- Go constant `TagLevelWarning ResponseTagLevel = "warning"`. -/
def TagLevelWarning : String := "warning"

/-- Go constant `TagLevelError ResponseTagLevel = "error"`. -/
def TagLevelError : String := "error"

/-- Go struct `Tag`: a label together with a severity level. -/
structure Tag where
  label : String
  level : String
deriving Repr, DecidableEq

/-- Go struct `Tags`: tag categories; only the `Status` category exists. -/
structure Tags where
  status : List Tag
deriving Repr, DecidableEq

/-- Go struct `ResponseOutcomeAttributes`. -/
structure ResponseOutcomeAttributes where
  outcomeID : String
  description : String
  tags : Tags
  body : String
  url : String
deriving Repr, DecidableEq

/-- Go struct `ResponseOutcome`. -/
structure ResponseOutcome where
  type : String
  attributes : ResponseOutcomeAttributes
deriving Repr, DecidableEq

/-- Go struct `ResponseOutcomes` (`Data []ResponseOutcome`). -/
structure ResponseOutcomes where
  data : List ResponseOutcome
deriving Repr, DecidableEq

/-- Go struct `ResponseRelationships`. -/
structure ResponseRelationships where
  outcomes : ResponseOutcomes
deriving Repr, DecidableEq

/-- Go struct `ResponseAttributes`; `Status` is the string-typed
`TaskStatus`. -/
structure ResponseAttributes where
  message : String
  status : String
  url : String
deriving Repr, DecidableEq

/-- Go struct `ResponseData`.  `Relationships` is a pointer
(`*ResponseRelationships`), hence an `Option` here; `none` models nil. -/
structure ResponseData where
  type : String
  attributes : ResponseAttributes
  relationships : Option ResponseRelationships
deriving Repr, DecidableEq

/-- Go struct `TaskResponse`: the top level message sent back. -/
structure TaskResponse where
  data : ResponseData
deriving Repr, DecidableEq

/-- Go `NewTaskResponse()`: fresh response, type `task-results`, empty
attributes (Go zero values: empty strings) and an initialized, empty
outcome list. -/
def NewTaskResponse : TaskResponse :=
  { data :=
    { type := "task-results"
      attributes := { message := "", status := "", url := "" }
      relationships := some { outcomes := { data := [] } } } }

/-- The outcome record Go's `AddOutcome` constructs before appending: type
`task-result-outcomes`, attributes carrying the six arguments, and a single
status tag built from `label` and `level`. -/
def mkOutcome (outcomeId description body url label level : String) :
    ResponseOutcome :=
  { type := "task-result-outcomes"
    attributes :=
    { outcomeID := outcomeId
      description := description
      tags := { status := [{ label := label, level := level }] }
      body := body
      url := url } }

/-- Go `(r *TaskResponse) AddOutcome(...)`: appends the constructed outcome
to `r.Data.Relationships.Outcomes.Data`.  When `Relationships` is nil the Go
code dereferences a nil pointer (panic), modelled by `none`. -/
def TaskResponse.AddOutcome (r : TaskResponse)
    (outcomeId description body url label level : String) :
    Option TaskResponse :=
  match r.data.relationships with
  | none => none
  | some rel =>
    let outcome := mkOutcome outcomeId description body url label level
    let rel' : ResponseRelationships :=
      { rel with outcomes := { data := rel.outcomes.data ++ [outcome] } }
    some { r with data := { r.data with relationships := some rel' } }

/-- Go `(r *TaskResponse) SetResult(status, message)`: overwrites the
top-level status and message. -/
def TaskResponse.SetResult (r : TaskResponse) (status message : String) :
    TaskResponse :=
  { r with data :=
    { r.data with attributes :=
      { r.data.attributes with status := status, message := message } } }

/-- Go `(r *TaskResponse) WithUrl(url)`: sets the top-level URL only when
`url` starts with `http://` or `https://`; otherwise leaves `r` unchanged. -/
def TaskResponse.WithUrl (r : TaskResponse) (url : String) : TaskResponse :=
  if hasPfx url "http://" || hasPfx url "https://" then
    { r with data :=
      { r.data with attributes := { r.data.attributes with url := url } } }
  else
    r

/-- Go `(r *TaskResponse) IsPassed()`: scans every outcome's status tags and
returns false on the first tag at level `error`, true otherwise.  Reading
`r.Data.Relationships` when it is nil panics in Go, modelled by `none`. -/
def TaskResponse.IsPassed (r : TaskResponse) : Option Bool :=
  match r.data.relationships with
  | none => none
  | some rel =>
    some (rel.outcomes.data.all fun outcome =>
      outcome.attributes.tags.status.all fun tag =>
        !(tag.level == TagLevelError))

/-- The outcome list of a response, when its relationships pointer is set. -/
def TaskResponse.outcomeList (r : TaskResponse) : Option (List ResponseOutcome) :=
  r.data.relationships.map fun rel => rel.outcomes.data

/-! ## Callback builder (`internal/sdk/handler/callback_builder.go`) -/

/-- Go struct `CallbackBuilder`: wraps an `api.TaskResponse`. -/
structure CallbackBuilder where
  resp : TaskResponse
deriving Repr, DecidableEq

/-- Go `NewCallbackBuilder(status)`: response with type `task-results`, the
given status, and nil relationships. -/
def NewCallbackBuilder (status : String) : CallbackBuilder :=
  { resp :=
    { data :=
      { type := "task-results"
        attributes := { message := "", status := status, url := "" }
        relationships := none } } }

/-- Go `(cb *CallbackBuilder) WithUrl(url)`: returns `cb` unchanged unless
`url` starts with `http://` or `https://`, in which case the top-level URL
is set. -/
def CallbackBuilder.WithUrl (cb : CallbackBuilder) (url : String) :
    CallbackBuilder :=
  if !hasPfx url "http://" && !hasPfx url "https://" then
    cb
  else
    { cb with resp :=
      { cb.resp with data :=
        { cb.resp.data with attributes :=
          { cb.resp.data.attributes with url := url } } } }

/-! ## JSON wire format (Go `encoding/json` over the tagged structs)

Only the JSON fragment these structs can produce is modelled: strings,
arrays and objects with ordered fields (Go marshals struct fields in
declaration order).  `omitempty` on a string omits the empty string, on a
slice omits the empty slice, on a pointer omits nil; on a non-pointer
struct field (`tags`, `outcomes`) Go ignores `omitempty`, so those fields
are always emitted. -/

inductive Json where
  | str (s : String)
  | arr (elems : List Json)
  | obj (fields : List (String × Json))

/-- Field lookup in a JSON object; `none` on a non-object or missing key. -/
def Json.getField (j : Json) (key : String) : Option Json :=
  match j with
  | .obj fields => (fields.find? fun f => f.1 == key).map fun f => f.2
  | _ => none

/-- Marshal a `Tag`: both fields lack `omitempty`. -/
def Tag.toJson (t : Tag) : Json :=
  .obj [("label", .str t.label), ("level", .str t.level)]

/-- Marshal `Tags`: `status` carries `omitempty`, so an empty tag list
drops the field. -/
def Tags.toJson (ts : Tags) : Json :=
  .obj (if ts.status.isEmpty then []
        else [("status", .arr (ts.status.map Tag.toJson))])

/-- Marshal `ResponseOutcomeAttributes`: `outcome-id` always present;
`description`, `body`, `url` are `omitempty` strings; `tags` is a struct
field whose `omitempty` Go ignores. -/
def ResponseOutcomeAttributes.toJson (a : ResponseOutcomeAttributes) : Json :=
  .obj ([("outcome-id", .str a.outcomeID)] ++
    (if a.description == "" then [] else [("description", .str a.description)]) ++
    [("tags", a.tags.toJson)] ++
    (if a.body == "" then [] else [("body", .str a.body)]) ++
    (if a.url == "" then [] else [("url", .str a.url)]))

/-- Marshal a `ResponseOutcome`. -/
def ResponseOutcome.toJson (o : ResponseOutcome) : Json :=
  .obj [("type", .str o.type), ("attributes", o.attributes.toJson)]

/-- Marshal `ResponseOutcomes`: `data` has no `omitempty`, so an empty list
is emitted as an explicit empty array. -/
def ResponseOutcomes.toJson (os : ResponseOutcomes) : Json :=
  .obj [("data", .arr (os.data.map ResponseOutcome.toJson))]

/-- Marshal `ResponseRelationships`: `outcomes` is a struct field, always
emitted. -/
def ResponseRelationships.toJson (rel : ResponseRelationships) : Json :=
  .obj [("outcomes", rel.outcomes.toJson)]

/-- Marshal `ResponseAttributes`: `message` and `url` are `omitempty`;
`status` is always emitted, even as the empty string. -/
def ResponseAttributes.toJson (a : ResponseAttributes) : Json :=
  .obj ((if a.message == "" then [] else [("message", .str a.message)]) ++
    [("status", .str a.status)] ++
    (if a.url == "" then [] else [("url", .str a.url)]))

/-- Marshal `ResponseData`: `relationships` is a nil-able pointer with
`omitempty`, so it is emitted exactly when the pointer is non-nil. -/
def ResponseData.toJson (d : ResponseData) : Json :=
  .obj ([("type", .str d.type), ("attributes", d.attributes.toJson)] ++
    (match d.relationships with
     | none => []
     | some rel => [("relationships", rel.toJson)]))

/-- Marshal the top-level `TaskResponse`. -/
def TaskResponse.toJson (r : TaskResponse) : Json :=
  .obj [("data", r.data.toJson)]

/-! ## SHA-512 (the `crypto/sha512` primitive used by `VerifyHMAC`)

A byte-level functional model of FIPS 180-4 SHA-512, the hash Go's
`hmac.New(sha512.New, key)` runs.  Words are `Nat`, reduced `% 2 ^ 64`
after every operation that can overflow 64 bits.  The round and initial
constants are derived, as in the standard, from the fractional parts of
the cube and square roots of the first eighty (resp. eight) primes. -/

/-- Right rotation of a 64-bit word. -/
def rotr64 (x n : Nat) : Nat :=
  ((x >>> n) ||| (x <<< (64 - n))) % 2 ^ 64

/-- FIPS 180-4 `Ch(x,y,z) = (x AND y) XOR (NOT x AND z)`; 64-bit complement
is xor with `2 ^ 64 - 1`. -/
def chFun (x y z : Nat) : Nat :=
  (x &&& y) ^^^ ((x ^^^ (2 ^ 64 - 1)) &&& z)

/-- FIPS 180-4 `Maj(x,y,z)`. -/
def majFun (x y z : Nat) : Nat :=
  (x &&& y) ^^^ (x &&& z) ^^^ (y &&& z)

/-- FIPS 180-4 `Σ0` for SHA-512. -/
def bigSigma0 (x : Nat) : Nat :=
  rotr64 x 28 ^^^ rotr64 x 34 ^^^ rotr64 x 39

/-- FIPS 180-4 `Σ1` for SHA-512. -/
def bigSigma1 (x : Nat) : Nat :=
  rotr64 x 14 ^^^ rotr64 x 18 ^^^ rotr64 x 41

/-- FIPS 180-4 `σ0` for SHA-512. -/
def smallSigma0 (x : Nat) : Nat :=
  rotr64 x 1 ^^^ rotr64 x 8 ^^^ (x >>> 7)

/-- FIPS 180-4 `σ1` for SHA-512. -/
def smallSigma1 (x : Nat) : Nat :=
  rotr64 x 19 ^^^ rotr64 x 61 ^^^ (x >>> 6)

/-- Binary search step for integer roots: maintains `lo ^ e ≤ n < hi ^ e`. -/
def irootAux (e : Nat) : Nat → Nat → Nat → Nat → Nat
  | 0, lo, _, _ => lo
  | fuel + 1, lo, hi, n =>
    if hi ≤ lo + 1 then lo
    else
      let mid := (lo + hi) / 2
      if mid ^ e ≤ n then irootAux e fuel mid hi n else irootAux e fuel lo mid n

/-- Integer `e`-th root, `⌊n ^ (1/e)⌋`, for `n < 2 ^ 256`. -/
def iroot (e n : Nat) : Nat :=
  irootAux e 256 0 (n + 1) n

/-- The first eighty primes, whose cube roots seed the round constants. -/
def primes80 : List Nat :=
  [2, 3, 5, 7, 11, 13, 17, 19, 23, 29, 31, 37, 41, 43, 47, 53, 59, 61,
   67, 71, 73, 79, 83, 89, 97, 101, 103, 107, 109, 113, 127, 131, 137,
   139, 149, 151, 157, 163, 167, 173, 179, 181, 191, 193, 197, 199, 211,
   223, 227, 229, 233, 239, 241, 251, 257, 263, 269, 271, 277, 281, 283,
   293, 307, 311, 313, 317, 331, 337, 347, 349, 353, 359, 367, 373, 379,
   383, 389, 397, 401, 409]

/-- SHA-512 round constants: the first 64 bits of the fractional parts of
the cube roots of the first eighty primes,
`K[i] = ⌊cbrt(p_i) * 2 ^ 64⌋ mod 2 ^ 64`. -/
def KConsts : List Nat :=
  primes80.map fun p => iroot 3 (p * 2 ^ 192) % 2 ^ 64

/-- First 64 bits of the fractional part of the square root of `p`. -/
def frac64Sqrt (p : Nat) : Nat :=
  iroot 2 (p * 2 ^ 128) % 2 ^ 64

/-- The eight 64-bit working variables of SHA-512. -/
structure Sha512State where
  a : Nat
  b : Nat
  c : Nat
  d : Nat
  e : Nat
  f : Nat
  g : Nat
  h : Nat
deriving Repr, DecidableEq

/-- SHA-512 initial hash value: fractional parts of the square roots of the
first eight primes. -/
def initState : Sha512State :=
  { a := frac64Sqrt 2, b := frac64Sqrt 3, c := frac64Sqrt 5, d := frac64Sqrt 7
    e := frac64Sqrt 11, f := frac64Sqrt 13, g := frac64Sqrt 17, h := frac64Sqrt 19 }

/-- Big-endian bytes to word. -/
def bytesToWord (bs : List Nat) : Nat :=
  bs.foldl (fun acc b => acc * 256 + b) 0

/-- The sixteen big-endian 64-bit words of a 128-byte block. -/
def blockWords (block : List Nat) : List Nat :=
  (List.range 16).map fun i => bytesToWord ((block.drop (8 * i)).take 8)

/-- One message-schedule extension step on the reversed schedule (head is
the most recent word `W[t-1]`):
`W[t] = σ1(W[t-2]) + W[t-7] + σ0(W[t-15]) + W[t-16] mod 2 ^ 64`. -/
def scheduleStep (ws : List Nat) : List Nat :=
  (smallSigma1 (ws.getD 1 0) + ws.getD 6 0 +
    smallSigma0 (ws.getD 14 0) + ws.getD 15 0) % 2 ^ 64 :: ws

/-- Iterate a function `n` times. -/
def iterate {α : Type} (f : α → α) : Nat → α → α
  | 0, x => x
  | n + 1, x => iterate f n (f x)

/-- The eighty-word message schedule of a block. -/
def msgSchedule (block : List Nat) : List Nat :=
  (iterate scheduleStep 64 (blockWords block).reverse).reverse

/-- One SHA-512 round with round constant `k` and schedule word `w`. -/
def sha512Round (st : Sha512State) (k w : Nat) : Sha512State :=
  let t1 := (st.h + bigSigma1 st.e + chFun st.e st.f st.g + k + w) % 2 ^ 64
  let t2 := (bigSigma0 st.a + majFun st.a st.b st.c) % 2 ^ 64
  { a := (t1 + t2) % 2 ^ 64, b := st.a, c := st.b, d := st.c
    e := (st.d + t1) % 2 ^ 64, f := st.e, g := st.f, h := st.g }

/-- Compress one 128-byte block into the running state: eighty rounds, then
the feed-forward addition of the incoming state. -/
def compressBlock (st : Sha512State) (block : List Nat) : Sha512State :=
  let fin := ((KConsts.zip (msgSchedule block)).foldl
    (fun s kw => sha512Round s kw.1 kw.2) st)
  { a := (st.a + fin.a) % 2 ^ 64, b := (st.b + fin.b) % 2 ^ 64
    c := (st.c + fin.c) % 2 ^ 64, d := (st.d + fin.d) % 2 ^ 64
    e := (st.e + fin.e) % 2 ^ 64, f := (st.f + fin.f) % 2 ^ 64
    g := (st.g + fin.g) % 2 ^ 64, h := (st.h + fin.h) % 2 ^ 64 }

/-- The sixteen big-endian bytes of the 128-bit message bit length. -/
def lengthBytes (bitLen : Nat) : List Nat :=
  (List.range 16).map fun i => (bitLen >>> (8 * (15 - i))) % 256

/-- FIPS 180-4 padding: a `0x80` byte, the least number of zero bytes
reaching 112 mod 128, then the 128-bit big-endian bit length. -/
def padMessage (msg : List Nat) : List Nat :=
  let zeros := (128 - ((msg.length + 17) % 128)) % 128
  msg ++ 0x80 :: List.replicate zeros 0 ++ lengthBytes (8 * msg.length)

/-- Split into 128-byte blocks (fuel-driven so the kernel can reduce it;
`bs.length` bounds the number of blocks). -/
def chunksAux : Nat → List Nat → List (List Nat)
  | 0, _ => []
  | _, [] => []
  | fuel + 1, bs => bs.take 128 :: chunksAux fuel (bs.drop 128)

/-- All 128-byte blocks of a padded message. -/
def chunks128 (bs : List Nat) : List (List Nat) :=
  chunksAux bs.length bs

/-- The eight big-endian bytes of a 64-bit word. -/
def wordBytes (w : Nat) : List Nat :=
  (List.range 8).map fun i => (w >>> (8 * (7 - i))) % 256

/-- The 64-byte digest read out of a final state. -/
def stateBytes (st : Sha512State) : List Nat :=
  wordBytes st.a ++ wordBytes st.b ++ wordBytes st.c ++ wordBytes st.d ++
  wordBytes st.e ++ wordBytes st.f ++ wordBytes st.g ++ wordBytes st.h

/-- SHA-512 of a byte sequence. -/
def sha512 (msg : List Nat) : List Nat :=
  stateBytes ((chunks128 (padMessage msg)).foldl compressBlock initState)

/-! ## HMAC and hex encoding (`crypto/hmac`, `encoding/hex`) -/

/-- HMAC-SHA-512 as Go's `crypto/hmac` computes it: a key longer than the
128-byte block is first hashed; the key is then zero-padded to the block
size and combined with the inner (`0x36`) and outer (`0x5c`) pads. -/
def hmacSha512 (key msg : List Nat) : List Nat :=
  let k0 := if 128 < key.length then sha512 key else key
  let kp := k0 ++ List.replicate (128 - k0.length) 0
  sha512 ((kp.map fun b => b ^^^ 0x5c) ++ sha512 ((kp.map fun b => b ^^^ 0x36) ++ msg))

/-- Lowercase hex digit of a nibble, as a byte (`'0'` = 48, `'a'` = 97). -/
def hexDigit (n : Nat) : Nat :=
  if n < 10 then 48 + n else 87 + n

/-- Uppercase hex digit of a nibble (`'A'` = 65). -/
def hexDigitUpper (n : Nat) : Nat :=
  if n < 10 then 48 + n else 55 + n

/-- Go `hex.EncodeToString` as bytes: two lowercase hex digits per byte. -/
def hexEncode : List Nat → List Nat
  | [] => []
  | b :: bs => hexDigit (b / 16) :: hexDigit (b % 16) :: hexEncode bs

/-- The uppercase variant of the hex encoding. -/
def hexEncodeUpper : List Nat → List Nat
  | [] => []
  | b :: bs => hexDigitUpper (b / 16) :: hexDigitUpper (b % 16) :: hexEncodeUpper bs

/-! ## Signature verification (`internal/sdk/handler/hmac.go`) -/

/-- The error returned by `mac.Write` on the request body.  The `hash.Hash`
interface contract (and the SHA-512 implementation) never returns one for
in-memory byte slices, so this is constantly `none`; the branch is kept to
mirror the Go control flow of `VerifyHMAC`. -/
def macWriteErr (_body : List Nat) : Option String :=
  none

/-- Go `hmac.Equal`: constant-time comparison of two byte slices, equal to
plain byte-sequence equality (slices of different lengths compare
unequal). -/
def hmacEqual (x y : List Nat) : Bool :=
  x == y

/-- Go `VerifyHMAC(requestBody, requestSignature, key)`: HMAC-SHA-512 the
body under `key`, hex-encode, and compare with the claimed signature;
the boolean result is paired with the (always absent) write error. -/
def VerifyHMAC (requestBody requestSignature key : List Nat) :
    Bool × Option String :=
  match macWriteErr requestBody with
  | some e => (false, some e)
  | none =>
    (hmacEqual requestSignature (hexEncode (hmacSha512 key requestBody)), none)

/-! ## Claim theorems -/

/-- An outcome free of error-level status tags, as a Bool. -/
def outcomeClean (o : ResponseOutcome) : Bool :=
  o.attributes.tags.status.all fun tag => !(tag.level == TagLevelError)

/-- Claim C1: for every Result whose relationships pointer is set (as on
every canonically constructed Result), `IsPassed` returns true iff no
contained Outcome carries a status tag at level `error`; a freshly
constructed Result with zero outcomes returns true; and a Result containing
at least one Outcome with an error-level tag returns false regardless of
the other outcomes. -/
theorem claim1_isPassed_iff_no_error :
    (∀ (r : TaskResponse) (rel : ResponseRelationships),
      r.data.relationships = some rel →
      (r.IsPassed = some true ↔
        ∀ o ∈ rel.outcomes.data, ∀ t ∈ o.attributes.tags.status,
          t.level ≠ TagLevelError)) ∧
    NewTaskResponse.IsPassed = some true ∧
    (∀ (r : TaskResponse) (rel : ResponseRelationships),
      r.data.relationships = some rel →
      (∃ o ∈ rel.outcomes.data, ∃ t ∈ o.attributes.tags.status,
        t.level = TagLevelError) →
      r.IsPassed = some false) := by
  refine ⟨fun r rel h => ?_, rfl, fun r rel h hex => ?_⟩
  · rw [TaskResponse.IsPassed, h]
    simp [List.all_eq_true]
  · rw [TaskResponse.IsPassed, h]
    obtain ⟨o, ho, t, ht, hlvl⟩ := hex
    simp only [Option.some.injEq]
    rw [List.all_eq_false]
    exact ⟨o, ho, by simp [List.all_eq_false]; exact ⟨t, ht, by simp [hlvl]⟩⟩

/-- A sample Result with one info outcome and one error outcome, used to
witness the error-dominance branch of claim C1. -/
def sampleMixedResult : TaskResponse :=
  { data :=
    { type := "task-results"
      attributes := { message := "", status := "", url := "" }
      relationships := some { outcomes :=
        { data := [mkOutcome "o1" "d1" "b1" "u1" "ok" TagLevelInfo,
                   mkOutcome "o2" "d2" "b2" "u2" "bad" TagLevelError] } } } }

/-- Witness for claim C1 at concrete Results: the fresh Result passes, and
a Result holding an info outcome and an error outcome fails. -/
theorem claim1_isPassed_iff_no_error_witness :
    NewTaskResponse.IsPassed = some true ∧
    sampleMixedResult.IsPassed = some false := by
  constructor
  · exact (claim1_isPassed_iff_no_error.1 NewTaskResponse ⟨⟨[]⟩⟩ rfl).mpr (by simp)
  · exact claim1_isPassed_iff_no_error.2.2 sampleMixedResult _ rfl
      ⟨mkOutcome "o2" "d2" "b2" "u2" "bad" TagLevelError, by simp,
       ⟨{ label := "bad", level := TagLevelError }, by simp [mkOutcome], rfl⟩⟩

/-- Claim C2: both `WithUrl` implementations set the top-level URL exactly
as given when the argument starts with `http://` or `https://`, and leave
the field at its previous value otherwise. -/
theorem claim2_withUrl_scheme_gate :
    ∀ (r : TaskResponse) (cb : CallbackBuilder) (url : String),
      ((hasPfx url "http://" || hasPfx url "https://") = true →
        (r.WithUrl url).data.attributes.url = url ∧
        (cb.WithUrl url).resp.data.attributes.url = url) ∧
      ((hasPfx url "http://" || hasPfx url "https://") = false →
        (r.WithUrl url).data.attributes.url = r.data.attributes.url ∧
        (cb.WithUrl url).resp.data.attributes.url = cb.resp.data.attributes.url) := by
  intro r cb url
  constructor <;> intro h <;>
    simp only [TaskResponse.WithUrl, CallbackBuilder.WithUrl, ← Bool.not_or, h] <;>
    simp

/-- Witness for claim C2: `http://x` and `https://x` are stored exactly;
`ftp://x` and `x.com` leave the URL unset on a fresh Result. -/
theorem claim2_withUrl_scheme_gate_witness :
    (NewTaskResponse.WithUrl "http://x").data.attributes.url = "http://x" ∧
    ((NewCallbackBuilder TaskPassed).WithUrl "https://x").resp.data.attributes.url
      = "https://x" ∧
    (NewTaskResponse.WithUrl "ftp://x").data.attributes.url = "" ∧
    ((NewCallbackBuilder TaskPassed).WithUrl "x.com").resp.data.attributes.url
      = "" := by
  refine ⟨?_, ?_, ?_, ?_⟩
  · exact ((claim2_withUrl_scheme_gate NewTaskResponse
      (NewCallbackBuilder TaskPassed) "http://x").1 (by decide)).1
  · exact ((claim2_withUrl_scheme_gate NewTaskResponse
      (NewCallbackBuilder TaskPassed) "https://x").1 (by decide)).2
  · exact ((claim2_withUrl_scheme_gate NewTaskResponse
      (NewCallbackBuilder TaskPassed) "ftp://x").2 (by decide)).1.trans rfl
  · exact ((claim2_withUrl_scheme_gate NewTaskResponse
      (NewCallbackBuilder TaskPassed) "x.com").2 (by decide)).2.trans rfl

/-- Claim C4 counterexample: the code's status enumeration has no
`pending`; `SetResult` with the declared constant `TaskRunning` stores
`"running"`, which is none of `pending`, `passed`, `failed`. -/
theorem claim4_counterexample_running :
    (NewTaskResponse.SetResult TaskRunning "msg").data.attributes.status ≠ "pending" ∧
    (NewTaskResponse.SetResult TaskRunning "msg").data.attributes.status ≠ "passed" ∧
    (NewTaskResponse.SetResult TaskRunning "msg").data.attributes.status ≠ "failed" := by
  refine ⟨?_, ?_, ?_⟩ <;> decide

/-- Claim C4 (amended): the declared `TaskStatus` enumeration is
`{failed, passed, running}`; `SetResult` stores the given constant exactly,
so any status set from the enumeration is one of these three values. -/
theorem claim4_amended_status_enum :
    ∀ (r : TaskResponse) (status message : String),
      status = TaskFailed ∨ status = TaskPassed ∨ status = TaskRunning →
      (r.SetResult status message).data.attributes.status = status ∧
      ((r.SetResult status message).data.attributes.status = "failed" ∨
       (r.SetResult status message).data.attributes.status = "passed" ∨
       (r.SetResult status message).data.attributes.status = "running") := by
  intro r status message h
  refine ⟨rfl, ?_⟩
  rcases h with h | h | h <;> subst h <;> simp [TaskResponse.SetResult,
    TaskFailed, TaskPassed, TaskRunning]

/-- Witness for the amended claim C4 at `TaskPassed`. -/
theorem claim4_amended_status_enum_witness :
    (NewTaskResponse.SetResult TaskPassed "ok").data.attributes.status = TaskPassed ∧
    ((NewTaskResponse.SetResult TaskPassed "ok").data.attributes.status = "failed" ∨
     (NewTaskResponse.SetResult TaskPassed "ok").data.attributes.status = "passed" ∨
     (NewTaskResponse.SetResult TaskPassed "ok").data.attributes.status = "running") :=
  claim4_amended_status_enum NewTaskResponse TaskPassed "ok" (Or.inr (Or.inl rfl))

/-- Claim C7: when the argument starts with neither `http://` nor
`https://`, `WithUrl` is a silent no-op: the returned Result is equal, as a
whole value (status, message, URL and the entire outcome sequence), to the
receiver, and no error channel even exists in the signature. -/
theorem claim7_withUrl_silent_noop :
    ∀ (r : TaskResponse) (url : String),
      (hasPfx url "http://" || hasPfx url "https://") = false →
      r.WithUrl url = r := by
  intro r url h
  rw [TaskResponse.WithUrl, h]
  rfl

/-- Witness for claim C7 at `ftp://x` on the fresh Result. -/
theorem claim7_withUrl_silent_noop_witness :
    NewTaskResponse.WithUrl "ftp://x" = NewTaskResponse :=
  claim7_withUrl_silent_noop NewTaskResponse "ftp://x" (by decide)

/-- Claim C9: a Result built by the canonical construction path
(`NewTaskResponse`, finalized with `SetResult`) and holding zero outcomes
serializes with the `relationships` field present, its `outcomes.data`
an explicit empty array rather than an omitted field. -/
theorem claim9_relationships_explicit_empty :
    ∀ (status message : String),
      (((NewTaskResponse.SetResult status message).toJson.getField "data").bind
        fun j => j.getField "relationships") =
      some (Json.obj [("outcomes", Json.obj [("data", Json.arr [])])]) := by
  intro status message
  rfl

/-! ## Sequenced outcome additions (claims C5, C6) -/

/-- One `AddOutcome` call's six string arguments. -/
structure OutcomeArgs where
  outcomeId : String
  description : String
  body : String
  url : String
  label : String
  level : String

/-- The outcome a single `AddOutcome` call appends for these arguments. -/
def OutcomeArgs.toOutcome (a : OutcomeArgs) : ResponseOutcome :=
  mkOutcome a.outcomeId a.description a.body a.url a.label a.level

/-- Call `AddOutcome` once per argument tuple, in list order. -/
def addOutcomes (r : TaskResponse) : List OutcomeArgs → Option TaskResponse
  | [] => some r
  | a :: rest =>
    match r.AddOutcome a.outcomeId a.description a.body a.url a.label a.level with
    | none => none
    | some r' => addOutcomes r' rest

/-- A single `AddOutcome` call appends exactly the constructed outcome and
keeps the relationships pointer set. -/
theorem addOutcome_step (r : TaskResponse) (rel : ResponseRelationships)
    (h : r.data.relationships = some rel)
    (outcomeId description body url label level : String) :
    ∃ r', r.AddOutcome outcomeId description body url label level = some r' ∧
      r'.data.relationships = some { outcomes :=
        { data := rel.outcomes.data ++
            [mkOutcome outcomeId description body url label level] } } := by
  rw [TaskResponse.AddOutcome, h]
  exact ⟨_, rfl, rfl⟩

/-- Folding `addOutcomes` over any starting Result with a set relationships
pointer succeeds and appends the constructed outcomes in call order. -/
theorem addOutcomes_appends :
    ∀ (args : List OutcomeArgs) (r : TaskResponse) (rel : ResponseRelationships),
      r.data.relationships = some rel →
      ∃ r', addOutcomes r args = some r' ∧
        r'.outcomeList =
          some (rel.outcomes.data ++ args.map OutcomeArgs.toOutcome) := by
  intro args
  induction args with
  | nil =>
    intro r rel h
    exact ⟨r, rfl, by simp [TaskResponse.outcomeList, h]⟩
  | cons a rest ih =>
    intro r rel h
    obtain ⟨r₁, h₁, hrel₁⟩ :=
      addOutcome_step r rel h a.outcomeId a.description a.body a.url a.label a.level
    obtain ⟨r', hfold, hlist⟩ := ih r₁ _ hrel₁
    refine ⟨r', ?_, ?_⟩
    · simp only [addOutcomes, h₁]
      exact hfold
    · rw [hlist]
      simp [OutcomeArgs.toOutcome]

/-- Serialization of a Result with a set relationships pointer renders the
outcome list in order: the `data` array under `relationships.outcomes` is
the element-wise marshalling of the outcome sequence. -/
theorem toJson_outcome_array (r : TaskResponse) (rel : ResponseRelationships)
    (h : r.data.relationships = some rel) :
    ((((r.toJson.getField "data").bind fun j => j.getField "relationships").bind
        fun j => j.getField "outcomes").bind fun j => j.getField "data") =
      some (Json.arr (rel.outcomes.data.map ResponseOutcome.toJson)) := by
  simp [TaskResponse.toJson, ResponseData.toJson, h, Json.getField,
    ResponseRelationships.toJson, ResponseOutcomes.toJson, List.find?]

/-- Claim C5: starting from the fresh Result, N sequenced `AddOutcome`
calls succeed and produce an outcome sequence — and a serialized outcome
array — of length exactly N, holding the outcomes in call order; and in
general the calls append to any Result's existing sequence in order. -/
theorem claim5_addOutcome_order_length :
    (∀ (args : List OutcomeArgs) (r : TaskResponse) (rel : ResponseRelationships),
      r.data.relationships = some rel →
      ∃ r', addOutcomes r args = some r' ∧
        r'.outcomeList =
          some (rel.outcomes.data ++ args.map OutcomeArgs.toOutcome)) ∧
    (∀ args : List OutcomeArgs,
      ∃ r', addOutcomes NewTaskResponse args = some r' ∧
        r'.outcomeList = some (args.map OutcomeArgs.toOutcome) ∧
        (args.map OutcomeArgs.toOutcome).length = args.length ∧
        ((((r'.toJson.getField "data").bind fun j => j.getField "relationships").bind
            fun j => j.getField "outcomes").bind fun j => j.getField "data") =
          some (Json.arr ((args.map OutcomeArgs.toOutcome).map
            ResponseOutcome.toJson))) := by
  refine ⟨addOutcomes_appends, fun args => ?_⟩
  obtain ⟨r', hfold, hlist⟩ :=
    addOutcomes_appends args NewTaskResponse ⟨⟨[]⟩⟩ rfl
  obtain ⟨rel', hrel'⟩ : ∃ rel', r'.data.relationships = some rel' := by
    rcases hopt : r'.data.relationships with _ | rel'
    · rw [TaskResponse.outcomeList, hopt] at hlist
      exact absurd hlist (by simp)
    · exact ⟨rel', rfl⟩
  have hdata : rel'.outcomes.data = args.map OutcomeArgs.toOutcome := by
    rw [TaskResponse.outcomeList, hrel'] at hlist
    simpa using hlist
  refine ⟨r', hfold, ?_, List.length_map _ _, ?_⟩
  · simpa using hlist
  · rw [toJson_outcome_array r' rel' hrel', hdata]

/-- Witness for claim C5: two concrete calls give a two-outcome sequence
in call order. -/
theorem claim5_addOutcome_order_length_witness :
    ∃ r', addOutcomes NewTaskResponse
        [⟨"o1", "d1", "b1", "u1", "ok", "info"⟩,
         ⟨"o2", "d2", "b2", "u2", "bad", "error"⟩] = some r' ∧
      r'.outcomeList =
        some ([⟨"o1", "d1", "b1", "u1", "ok", "info"⟩,
               ⟨"o2", "d2", "b2", "u2", "bad", "error"⟩].map
          OutcomeArgs.toOutcome) ∧
      ([⟨"o1", "d1", "b1", "u1", "ok", "info"⟩,
        ⟨"o2", "d2", "b2", "u2", "bad", "error"⟩].map
          (OutcomeArgs.toOutcome)).length = 2 ∧
      ((((r'.toJson.getField "data").bind fun j => j.getField "relationships").bind
          fun j => j.getField "outcomes").bind fun j => j.getField "data") =
        some (Json.arr (([⟨"o1", "d1", "b1", "u1", "ok", "info"⟩,
          ⟨"o2", "d2", "b2", "u2", "bad", "error"⟩].map
            (OutcomeArgs.toOutcome)).map ResponseOutcome.toJson)) :=
  claim5_addOutcome_order_length.2
    [⟨"o1", "d1", "b1", "u1", "ok", "info"⟩,
     ⟨"o2", "d2", "b2", "u2", "bad", "error"⟩]

/-- Claim C6: `AddOutcome` stores the outcome URL exactly as given with no
scheme validation, makes the (label, level) pair the sole entry of the
outcome's status tag category, and cannot fail for any string inputs
(including empty strings) on a Result whose relationships pointer is set. -/
theorem claim6_addOutcome_stores_exactly :
    ∀ (r : TaskResponse) (rel : ResponseRelationships)
      (outcomeId description body url label level : String),
      r.data.relationships = some rel →
      ∃ r', r.AddOutcome outcomeId description body url label level = some r' ∧
        r'.outcomeList = some (rel.outcomes.data ++
          [mkOutcome outcomeId description body url label level]) ∧
        (mkOutcome outcomeId description body url label level).attributes.url
          = url ∧
        (mkOutcome outcomeId description body url label level).attributes.tags.status
          = [{ label := label, level := level }] := by
  intro r rel outcomeId description body url label level h
  obtain ⟨r', h', hrel'⟩ :=
    addOutcome_step r rel h outcomeId description body url label level
  exact ⟨r', h', by simp [TaskResponse.outcomeList, hrel'], rfl, rfl⟩

/-- Witness for claim C6: a non-HTTP outcome URL (`ftp://x`) and empty
strings are accepted and stored unchanged on the fresh Result. -/
theorem claim6_addOutcome_stores_exactly_witness :
    ∃ r', NewTaskResponse.AddOutcome "" "" "" "ftp://x" "" "" = some r' ∧
      r'.outcomeList = some ([] ++ [mkOutcome "" "" "" "ftp://x" "" ""]) ∧
      (mkOutcome "" "" "" "ftp://x" "" "").attributes.url = "ftp://x" ∧
      (mkOutcome "" "" "" "ftp://x" "" "").attributes.tags.status
        = [{ label := "", level := "" }] :=
  claim6_addOutcome_stores_exactly NewTaskResponse ⟨⟨[]⟩⟩ "" "" "" "ftp://x" "" "" rfl

/-! ## Signature-verification claims (C3, C8, C10)

Two published test vectors pin the hash model to the real primitive: the
FIPS 180-4 SHA-512 digest of the empty message, and RFC 4231 test case 1
for HMAC-SHA-512. -/

/-- SHA-512 of the empty message matches the published FIPS vector. -/
theorem sha512_empty_fips_vector :
    sha512 [] =
    [0xcf, 0x83, 0xe1, 0x35, 0x7e, 0xef, 0xb8, 0xbd, 0xf1, 0x54, 0x28, 0x50,
     0xd6, 0x6d, 0x80, 0x07, 0xd6, 0x20, 0xe4, 0x05, 0x0b, 0x57, 0x15, 0xdc,
     0x83, 0xf4, 0xa9, 0x21, 0xd3, 0x6c, 0xe9, 0xce, 0x47, 0xd0, 0xd1, 0x3c,
     0x5d, 0x85, 0xf2, 0xb0, 0xff, 0x83, 0x18, 0xd2, 0x87, 0x7e, 0xec, 0x2f,
     0x63, 0xb9, 0x31, 0xbd, 0x47, 0x41, 0x7a, 0x81, 0xa5, 0x38, 0x32, 0x7a,
     0xf9, 0x27, 0xda, 0x3e] := by
  decide

/-- HMAC-SHA-512 matches RFC 4231 test case 1 (key twenty `0x0b` bytes,
message `Hi There`). -/
theorem hmacSha512_rfc4231_case1 :
    hmacSha512 (List.replicate 20 0x0b)
        [0x48, 0x69, 0x20, 0x54, 0x68, 0x65, 0x72, 0x65] =
    [0x87, 0xaa, 0x7c, 0xde, 0xa5, 0xef, 0x61, 0x9d, 0x4f, 0xf0, 0xb4, 0x24,
     0x1a, 0x1d, 0x6c, 0xb0, 0x23, 0x79, 0xf4, 0xe2, 0xce, 0x4e, 0xc2, 0x78,
     0x7a, 0xd0, 0xb3, 0x05, 0x45, 0xe1, 0x7c, 0xde, 0xda, 0xa8, 0x33, 0xb7,
     0xd6, 0xb8, 0xa7, 0x02, 0x03, 0x8b, 0x27, 0x4e, 0xae, 0xa3, 0xf4, 0xe4,
     0xbe, 0x9d, 0x91, 0x4e, 0xeb, 0x61, 0xf1, 0x70, 0x2e, 0x69, 0x6c, 0x20,
     0x3a, 0x12, 0x68, 0x54] := by
  decide

/-- Unfolding of `VerifyHMAC` on in-memory inputs: the boolean is the byte
equality of the claimed signature with the lowercase hex encoding of the
computed HMAC, and the error is absent. -/
theorem verify_eq (body sig key : List Nat) :
    VerifyHMAC body sig key =
      ((sig == hexEncode (hmacSha512 key body)), Option.none) :=
  rfl

/-- Claim C3 counterexample: HMAC keys are zero-padded to the 128-byte
block, so the distinct keys `[]` and `[0x00]` produce the same MAC, and
Verify accepts the signature computed under `[]` when called with the
wrong key `[0x00]` — refuting the clause that every wrong key is
rejected. -/
theorem claim3_counterexample_zero_padded_key :
    ([0x00] : List Nat) ≠ ([] : List Nat) ∧
    (VerifyHMAC [] (hexEncode (hmacSha512 [] [])) [0x00]).1 = true := by
  refine ⟨by simp, ?_⟩
  have hk : hmacSha512 [0x00] [] = hmacSha512 [] [] := rfl
  show (hexEncode (hmacSha512 [] []) == hexEncode (hmacSha512 [0x00] [])) = true
  rw [hk]
  exact beq_self_eq_true _

/-- Claim C3 (amended): Verify accepts the hex-encoded HMAC of the body
under the verification key — so the round trip always verifies — and
rejects exactly the signatures that differ from it; a wrong key or
tampered body is therefore rejected precisely when it changes the
hex-encoded MAC (distinct keys can coincide after zero-padding). -/
theorem claim3_amended_roundtrip :
    ∀ (body key sig : List Nat),
      VerifyHMAC body (hexEncode (hmacSha512 key body)) key = (true, Option.none) ∧
      (sig ≠ hexEncode (hmacSha512 key body) →
        VerifyHMAC body sig key = (false, Option.none)) := by
  intro body key sig
  refine ⟨?_, fun h => ?_⟩
  · rw [verify_eq]
    simp
  · rw [verify_eq]
    simp [beq_eq_false_iff_ne, h]

/-- Witness for the amended claim C3: a one-byte body and key round-trip
to true, and a wrong one-byte signature is rejected without error. -/
theorem claim3_amended_roundtrip_witness :
    VerifyHMAC [0x61] (hexEncode (hmacSha512 [0x6b] [0x61])) [0x6b]
      = (true, Option.none) ∧
    VerifyHMAC [0x61] [0x30] [0x6b] = (false, Option.none) :=
  ⟨(claim3_amended_roundtrip [0x61] [0x6b] [0x30]).1,
   (claim3_amended_roundtrip [0x61] [0x6b] [0x30]).2 (by decide)⟩

/-- Claim C8: the error component of `VerifyHMAC` is `none` for all
in-memory inputs — it could only arise from the hash write itself — and a
signature that does not match the computed hex-encoded HMAC yields the
normal result `(false, none)`, never an error. -/
theorem claim8_mismatch_is_false_not_error :
    ∀ (body sig key : List Nat),
      (VerifyHMAC body sig key).2 = Option.none ∧
      (sig ≠ hexEncode (hmacSha512 key body) →
        VerifyHMAC body sig key = (false, Option.none)) := by
  intro body sig key
  refine ⟨rfl, fun h => ?_⟩
  rw [verify_eq]
  simp [beq_eq_false_iff_ne, h]

/-- Witness for claim C8: the empty signature never matches a 128-digit
hex MAC, and Verify returns `(false, none)` on it. -/
theorem claim8_mismatch_is_false_not_error_witness :
    (VerifyHMAC [] [] []).2 = Option.none ∧
    VerifyHMAC [] [] [] = (false, Option.none) :=
  ⟨(claim8_mismatch_is_false_not_error [] [] []).1,
   (claim8_mismatch_is_false_not_error [] [] []).2 (by decide)⟩

/-- Claim C10: Verify accepts exactly the lowercase hex encoding of the
HMAC — the comparison is byte equality against that string — and the
uppercase encoding is rejected with no error whenever it differs from the
lowercase one, i.e. unless every hex digit of the MAC happens to be
numeric. -/
theorem claim10_accepts_lowercase_hex_only :
    ∀ (body sig key : List Nat),
      ((VerifyHMAC body sig key).1 = true ↔
        sig = hexEncode (hmacSha512 key body)) ∧
      (hexEncodeUpper (hmacSha512 key body) ≠ hexEncode (hmacSha512 key body) →
        VerifyHMAC body (hexEncodeUpper (hmacSha512 key body)) key
          = (false, Option.none)) := by
  intro body sig key
  refine ⟨?_, fun h => ?_⟩
  · rw [verify_eq]
    exact beq_iff_eq
  · rw [verify_eq]
    simp [beq_eq_false_iff_ne, h]

/-- Witness for claim C10: on the empty body and key the uppercase hex
encoding of the MAC differs from the lowercase one (the digest contains
letter digits) and is rejected, while the lowercase encoding verifies. -/
theorem claim10_accepts_lowercase_hex_only_witness :
    (VerifyHMAC [] (hexEncode (hmacSha512 [] [])) []).1 = true ∧
    VerifyHMAC [] (hexEncodeUpper (hmacSha512 [] [])) [] = (false, Option.none) :=
  ⟨(claim10_accepts_lowercase_hex_only [] (hexEncode (hmacSha512 [] [])) []).1.mpr
      rfl,
   (claim10_accepts_lowercase_hex_only [] [] []).2 (by decide)⟩

end RunTask
